import Mathlib

/-! # The saved-items example service of gizmo: identity gate and response shaper

A shallow embedding of `examples/servers/nyt-saved-items/service/service.go`
and of the library calls it makes (`strconv.ParseUint`, `http.Header.Get`,
`context.Set`, `server.Log`, `gziphandler.GzipHandler`), followed by the
properties of the identity gate (`authCheck`), the response shaper
(`JSONMiddleware`), the compression hook (`Middleware`) and the route table.
-/

namespace Gizmo

/-! ## `strconv.ParseUint` -/

/-- The error kinds of `strconv.NumError`. -/
inductive NumError where
  | ErrSyntax
  | ErrRange
  | ErrBase
  | ErrBitSize
  deriving DecidableEq, Repr

/-- Go: `const maxUint64 = 1<<64 - 1`. -/
def maxUint64 : Nat := 2 ^ 64 - 1

/-- Go: `func lower(c byte) byte { return c | ('x' - 'X') }`. -/
def lower (c : Nat) : Nat := c ||| 32

/-- The `switch` on the byte `c` in the loop of `ParseUint` (the `_` case only
fires for `base == 0`, which is not this branch): the digit value of `c`, or
`none` for the `default` case. -/
def digitOf (c : Nat) : Option Nat :=
  if 48 ≤ c ∧ c ≤ 57 then some (c - 48)
  else if 97 ≤ lower c ∧ lower c ≤ 122 then some (lower c - 97 + 10)
  else none

/-- The `for _, c := range []byte(s)` loop of `ParseUint`, with the accumulator
`n` a `uint64` (arithmetic modulo `2 ^ 64`). A string is read character by
character: a character outside ASCII is encoded in bytes `≥ 0x80`, each of
which takes the `default` case, as its code point does here. -/
def parseLoop (base cutoff maxVal : Nat) : List Char → Nat → Nat × Option NumError
  | [], n => (n, none)
  | c :: cs, n =>
    match digitOf c.toNat with
    | none => (0, some NumError.ErrSyntax)
    | some d =>
      if d ≥ base then (0, some NumError.ErrSyntax)
      else if n ≥ cutoff then (maxVal, some NumError.ErrRange)
      else
        let n0 := (n * base) % 2 ^ 64
        let n1 := (n0 + d) % 2 ^ 64
        if n1 < n0 ∨ n1 > maxVal then (maxVal, some NumError.ErrRange)
        else parseLoop base cutoff maxVal cs n1

/-- Go: `strconv.ParseUint(s, base, bitSize)` for an explicit base
`2 ≤ base ≤ 36`, returning the pair `(n, err)`. The prefix-detecting branch
`base == 0` is not embedded (the service always passes base 10); here it
falls with the invalid bases. -/
def ParseUint (s : String) (base bitSize : Nat) : Nat × Option NumError :=
  if s = "" then (0, some NumError.ErrSyntax)
  else if ¬ (2 ≤ base ∧ base ≤ 36) then (0, some NumError.ErrBase)
  else if bitSize > 64 then (0, some NumError.ErrBitSize)
  else
    let bits := if bitSize = 0 then 64 else bitSize
    let cutoff := maxUint64 / base + 1
    let maxVal := ((2 ^ bits) % 2 ^ 64 + 2 ^ 64 - 1) % 2 ^ 64
    parseLoop base cutoff maxVal s.toList 0

/-! ## Requests, headers, the request context and the log -/

/-- The bytes `net/textproto` allows in a header field name (RFC 7230 token
characters). -/
def validHeaderFieldByte (c : Char) : Bool :=
  c.isAlphanum || "!#$%&'*+-.^_|~".toList.contains c || c = Char.ofNat 96

/-- The casing pass of `textproto.CanonicalMIMEHeaderKey`: upper case for the
first letter and for a letter after a dash, lower case elsewhere. -/
def canonicalCase : Bool → List Char → List Char
  | _, [] => []
  | upper, c :: cs =>
    let c1 := if upper then c.toUpper else c.toLower
    c1 :: canonicalCase (c1 = '-') cs

/-- Go: `textproto.CanonicalMIMEHeaderKey`: a key holding a byte that is not
a token character is returned unchanged. -/
def CanonicalMIMEHeaderKey (s : String) : String :=
  if s.toList.all validHeaderFieldByte then String.mk (canonicalCase true s.toList) else s

/-- Go: `http.Header`, a map from canonical field names to their values. -/
abbrev Header := List (String × List String)

/-- Go: `Header.Get(key)`: the first value stored under the canonical form of
`key`, or `""` when there is none. -/
def Header.Get (h : Header) (key : String) : String :=
  match h.lookup (CanonicalMIMEHeaderKey key) with
  | some (v :: _) => v
  | _ => ""

/-- Go: `*http.Request`, as far as the service can look at it. `ptr` is the
identity of the pointer, under which `gorilla/context` files the request. -/
structure Request where
  ptr : Nat
  Method : String
  URL : String
  Header : Header
  Body : String

/-- Go: `type jsonErr struct { Err string }`. -/
structure jsonErr where
  Err : String
  deriving DecidableEq, Repr

/-- Go: `func (e *jsonErr) Error() string`. -/
def jsonErr.Error (e : jsonErr) : String := e.Err

/-- Go: `ServiceUnavailableErr = &jsonErr{...}`. -/
def ServiceUnavailableErr : jsonErr := ⟨"sorry, this service is currently unavailable"⟩

/-- Go: `UnauthErr = &jsonErr{...}`. -/
def UnauthErr : jsonErr := ⟨"please include a valid USER_ID header in the request"⟩

/-- A non-nil value of Go's `error` interface: a `*jsonErr` of this package or
an error of any other type, known by the text of its `Error()`. -/
inductive GoError where
  | json (e : jsonErr)
  | foreign (text : String)
  deriving DecidableEq, Repr

/-- Go: `err.Error()`. -/
def GoError.Error : GoError → String
  | GoError.json e => e.Error
  | GoError.foreign t => t

/-- A non-nil value of Go's `interface{}`, as a payload or a context value. -/
inductive GoValue where
  | uint64 (n : Nat)
  | string (s : String)
  | strings (xs : List String)
  deriving DecidableEq, Repr

/-- Keys of the request context. Go: `type idKey int`; keys of other packages
are of other types and never equal an `idKey`. -/
inductive Key where
  | idKey (n : Int)
  | foreign (name : String)
  deriving DecidableEq, Repr

/-- Go: `const userIDKey idKey = 0`. -/
def userIDKey : Key := Key.idKey 0

/-- One entry of `server.Log`: level, message and fields. -/
structure LogEntry where
  level : String
  msg : String
  fields : List (String × GoError)
  deriving DecidableEq, Repr

/-- The mutable state the service shares with its collaborators: the
`gorilla/context` store (request pointer, then key) and the log. -/
structure Store where
  data : Nat → Key → Option GoValue
  Log : List LogEntry

/-- Go: `context.Set(r, key, val)`: `data[r][key] = val`. -/
def Store.Set (s : Store) (r : Request) (key : Key) (val : GoValue) : Store :=
  { s with data := fun p k => if p = r.ptr ∧ k = key then some val else s.data p k }

/-- Go: `server.Log.WithField("error", err).Error(msg)`. -/
def Store.LogError (s : Store) (err : GoError) (msg : String) : Store :=
  { s with Log := s.Log ++ [⟨"error", msg, [("error", err)]⟩] }

/-- The triple `(code int, res interface{}, err error)` an endpoint returns;
`none` is Go's `nil`. -/
structure Result where
  code : Int
  res : Option GoValue
  err : Option GoError
  deriving DecidableEq, Repr

/-- Go: `server.JSONEndpoint`, `func(r *http.Request) (int, interface{}, error)`,
with the state it may read and write passed explicitly. -/
abbrev JSONEndpoint := Request → Store → Result × Store

/-- What the service's own code does to its collaborators, in order. -/
inductive Event where
  | contextSet (r : Nat) (key : Key) (val : GoValue)
  | invoke (r : Nat)
  | logError (err : GoError)
  deriving DecidableEq, Repr

/-- An endpoint built by this package: besides the result and the new state it
yields the events its own statements produced. -/
abbrev TracedEndpoint := Request → Store → Result × Store × List Event

/-- Go: `http.StatusUnauthorized`. -/
def StatusUnauthorized : Int := 401

/-- Go: `http.StatusServiceUnavailable`. -/
def StatusServiceUnavailable : Int := 503

/-! ## The service -/

/-- Go: `authCheck(j)`. -/
def authCheck (j : JSONEndpoint) : TracedEndpoint := fun r s =>
  -- check for User ID header injected by API Gateway
  let idStr := r.Header.Get "USER_ID"
  -- verify it's an int
  let (id, err) := ParseUint idStr 10 64
  -- reject request if bad/no user ID
  if err ≠ none ∨ id = 0 then
    (⟨StatusUnauthorized, none, some (GoError.json UnauthErr)⟩, s, [])
  else
    -- set the ID in context if we're good
    let s1 := s.Set r userIDKey (GoValue.uint64 id)
    let (out, s2) := j r s1
    (out, s2, [Event.contextSet r.ptr userIDKey (GoValue.uint64 id), Event.invoke r.ptr])

/-- Go: `(*SavedItemsService).JSONMiddleware(j)`. -/
def JSONMiddleware (j : JSONEndpoint) : TracedEndpoint := fun r s =>
  -- wrap our endpoint with an auth check
  let (out, s1, tr) := authCheck j r s
  -- if the endpoint returns an unexpected error, return a generic message
  -- and log it.
  match out.err with
  | some e =>
    if out.code ≠ StatusUnauthorized then
      (⟨StatusServiceUnavailable, none, some (GoError.json ServiceUnavailableErr)⟩,
        s1.LogError e "unexpected service error", tr ++ [Event.logError e])
    else (out, s1, tr)
  | none => (out, s1, tr)

/-- Go: a value of the interface `http.Handler`: a handler handed to the
service, or the handler `gziphandler.GzipHandler(h)` compressing what `h`
writes. -/
inductive Handler where
  | given (id : Nat)
  | GzipHandler (h : Handler)
  deriving DecidableEq, Repr

/-- The closure `(*SavedItemsService).Middleware(h)` returns. Its only state is
the captured variable `h`, which the body assigns to. -/
structure MiddlewareFunc where
  h : Handler
  deriving DecidableEq, Repr

/-- Go: `(*SavedItemsService).Middleware(h)`. -/
def Middleware (h : Handler) : MiddlewareFunc := ⟨h⟩

/-- One call of the closure on a request: `h = gziphandler.GzipHandler(h)`,
then `h.ServeHTTP(w, r)`. Yields the closure after the call and the handler
that served `r`. -/
def MiddlewareFunc.ServeHTTP (f : MiddlewareFunc) (_r : Request) : MiddlewareFunc × Handler :=
  -- wrap the response with our GZIP Middleware
  let h := Handler.GzipHandler f.h
  -- and call the endpoint
  (⟨h⟩, h)

/-- The handlers that serve a sequence of requests sent to one closure. -/
def MiddlewareFunc.serveAll : MiddlewareFunc → List Request → List Handler
  | _, [] => []
  | f, r :: rs => (f.ServeHTTP r).2 :: MiddlewareFunc.serveAll (f.ServeHTTP r).1 rs

/-- Go: `SavedItemsService`. The methods `Get`, `Put` and `Delete` are defined
in another file of the package; they are taken as given endpoints. -/
structure SavedItemsService where
  Get : JSONEndpoint
  Put : JSONEndpoint
  Delete : JSONEndpoint

/-- Go: `(*SavedItemsService).Prefix()`. -/
def SavedItemsService.Prefix (_s : SavedItemsService) : String := "/svc/saved-items"

/-- Go: `(*SavedItemsService).JSONEndpoints()`; a map is the list of its
bindings, keys distinct. -/
def SavedItemsService.JSONEndpoints (s : SavedItemsService) :
    List (String × List (String × JSONEndpoint)) :=
  [("/user", [("GET", s.Get), ("PUT", s.Put), ("DELETE", s.Delete)])]

/-- Go: `m[route][method]` on the map of `JSONEndpoints()`. -/
def SavedItemsService.endpointAt (s : SavedItemsService) (route method : String) :
    Option JSONEndpoint :=
  match s.JSONEndpoints.lookup route with
  | some methods => methods.lookup method
  | none => none

/-! ## Sample inputs -/

/-- A store with an empty context and an empty log. -/
def emptyStore : Store := ⟨fun _ _ => none, []⟩

/-- A request to the saved-items resource with the given verb and the given
value of the `USER_ID` header. -/
def requestWith (verb userID : String) : Request :=
  ⟨1, verb, "/svc/saved-items/user", [("User_id", [userID])], ""⟩

/-- A request to the saved-items resource without a `USER_ID` header. -/
def requestWithout (verb : String) : Request :=
  ⟨1, verb, "/svc/saved-items/user", [("Accept", ["application/json"])], ""⟩

/-- An endpoint that answers `200` with the identity it finds in the context. -/
def echoEndpoint : JSONEndpoint := fun r s =>
  (⟨200, s.data r.ptr userIDKey, none⟩, s)

/-- An endpoint whose repository call fails: status `500` and the raw error. -/
def failingEndpoint : JSONEndpoint := fun _ s =>
  (⟨500, some (GoValue.string "half a page"),
    some (GoError.foreign "dial tcp 10.0.0.5:3306: connection refused")⟩, s)

/-- An endpoint that reports its own error with status `401`. -/
def forbiddingEndpoint : JSONEndpoint := fun _ s =>
  (⟨401, none, some (GoError.foreign "user 42 has no row in table saved_items")⟩, s)

/-- Go: `gziphandler.GzipHandler` applied `k` times. -/
def gzipTimes : Nat → Handler → Handler
  | 0, h => h
  | k + 1, h => Handler.GzipHandler (gzipTimes k h)

/-! ## The identity the specification describes -/

/-- An ASCII decimal digit, `'0'` to `'9'`. -/
def isAsciiDigit (c : Char) : Bool := decide (48 ≤ c.toNat ∧ c.toNat ≤ 57)

/-- The numeric value of the digits `cs` read in base 10 after a value `n`. -/
def decimalFrom (n : Nat) (cs : List Char) : Nat :=
  cs.foldl (fun v c => 10 * v + (c.toNat - 48)) n

/-- The numeric value of a string of decimal digits. -/
def decimalValue (s : String) : Nat := decimalFrom 0 s.toList

/-- The header values the specification lets through: a non-empty string of
ASCII decimal digits whose value `v` has `1 ≤ v ≤ 2 ^ 64 - 1`. -/
def validIdentity (s : String) : Bool :=
  s ≠ "" && s.toList.all isAsciiDigit && decide (1 ≤ decimalValue s)
    && decide (decimalValue s ≤ 2 ^ 64 - 1)

/-- The rejection of the identity gate. -/
def unauthorized : Result := ⟨StatusUnauthorized, none, some (GoError.json UnauthErr)⟩

/-! ## Lemmas on `ParseUint` -/

theorem maxUint64_eq : maxUint64 = 18446744073709551615 := by
  norm_num [maxUint64]

theorem le_decimalFrom (cs : List Char) (n : Nat) : n ≤ decimalFrom n cs := by
  induction cs generalizing n with
  | nil => simp [decimalFrom]
  | cons c cs ih =>
    have h := ih (10 * n + (c.toNat - 48))
    simp only [decimalFrom, List.foldl_cons] at h ⊢
    omega

theorem digitOf_of_digit (c : Nat) (h : 48 ≤ c ∧ c ≤ 57) : digitOf c = some (c - 48) := by
  simp [digitOf, h]

theorem digitOf_of_not_digit (c : Nat) (h : ¬ (48 ≤ c ∧ c ≤ 57)) :
    digitOf c = none ∨ ∃ d, digitOf c = some d ∧ 10 ≤ d := by
  unfold digitOf
  rw [if_neg h]
  by_cases hl : 97 ≤ lower c ∧ lower c ≤ 122
  · right
    exact ⟨lower c - 97 + 10, by rw [if_pos hl], by omega⟩
  · left
    rw [if_neg hl]

/-- The loop of `ParseUint` in base 10 on 64 bits: it ends without an error
exactly on digits whose value stays within `maxUint64`, with that value. -/
theorem parseLoop_spec (cs : List Char) (n : Nat) (hn : n ≤ maxUint64) :
    (cs.all isAsciiDigit = true ∧ decimalFrom n cs ≤ maxUint64 →
        parseLoop 10 (maxUint64 / 10 + 1) maxUint64 cs n = (decimalFrom n cs, none)) ∧
    (¬ (cs.all isAsciiDigit = true ∧ decimalFrom n cs ≤ maxUint64) →
        (parseLoop 10 (maxUint64 / 10 + 1) maxUint64 cs n).2 ≠ none) := by
  induction cs generalizing n with
  | nil =>
    constructor
    · intro _
      simp [parseLoop, decimalFrom]
    · intro h
      exact absurd ⟨by simp, by simpa [decimalFrom] using hn⟩ h
  | cons c cs ih =>
    have hM := maxUint64_eq
    by_cases hc : 48 ≤ c.toNat ∧ c.toNat ≤ 57
    · have hd := digitOf_of_digit c.toNat hc
      have hall : (c :: cs).all isAsciiDigit = cs.all isAsciiDigit := by
        simp [isAsciiDigit, hc]
      have hstep : decimalFrom n (c :: cs) = decimalFrom (10 * n + (c.toNat - 48)) cs := by
        simp [decimalFrom]
      have hmono := le_decimalFrom cs (10 * n + (c.toNat - 48))
      rw [hall, hstep]
      by_cases hcut : n ≥ maxUint64 / 10 + 1
      · -- the product overflows
        constructor
        · intro ⟨_, h⟩
          omega
        · intro _
          have h9 : ¬ (c.toNat - 48 ≥ 10) := by omega
          simp only [parseLoop, hd, h9, hcut, if_true, if_false]
          simp
      · by_cases hsum : 10 * n + (c.toNat - 48) ≤ maxUint64
        · have h0 : (n * 10) % 2 ^ 64 = n * 10 := Nat.mod_eq_of_lt (by omega)
          have h1 : (n * 10 + (c.toNat - 48)) % 2 ^ 64 = 10 * n + (c.toNat - 48) := by
            rw [Nat.mod_eq_of_lt (by omega)]
            omega
          have hrec : parseLoop 10 (maxUint64 / 10 + 1) maxUint64 (c :: cs) n
              = parseLoop 10 (maxUint64 / 10 + 1) maxUint64 cs (10 * n + (c.toNat - 48)) := by
            have hlt : ¬ (10 * n + (c.toNat - 48) < n * 10 ∨
                10 * n + (c.toNat - 48) > maxUint64) := by omega
            have h9 : ¬ (c.toNat - 48 ≥ 10) := by omega
            simp only [parseLoop, hd, h9, hcut, h0, h1, hlt, if_false]
          rw [hrec]
          exact ih _ hsum
        · constructor
          · intro ⟨_, h⟩
            omega
          · intro _
            have h0 : (n * 10) % 2 ^ 64 = n * 10 := Nat.mod_eq_of_lt (by omega)
            have hlt : (n * 10 + (c.toNat - 48)) % 2 ^ 64 < n * 10 ∨
                (n * 10 + (c.toNat - 48)) % 2 ^ 64 > maxUint64 := by omega
            have h9 : ¬ (c.toNat - 48 ≥ 10) := by omega
            simp only [parseLoop, hd, h9, hcut, h0, hlt, if_true, if_false]
            simp
    · have hall : (c :: cs).all isAsciiDigit = false := by
        simp [isAsciiDigit, hc]
      constructor
      · intro h
        rw [hall] at h
        exact absurd h.1 (by simp)
      · intro _
        rcases digitOf_of_not_digit c.toNat hc with h | ⟨d, h, hd10⟩
        · simp [parseLoop, h]
        · simp [parseLoop, h, hd10]

theorem ParseUint_eq_parseLoop (s : String) (h : s ≠ "") :
    ParseUint s 10 64 = parseLoop 10 (maxUint64 / 10 + 1) maxUint64 s.toList 0 := by
  have hM : ((2 ^ 64) % 2 ^ 64 + 2 ^ 64 - 1) % 2 ^ 64 = maxUint64 := by
    norm_num [maxUint64]
  simp only [ParseUint, h, if_false]
  norm_num
  rw [← maxUint64_eq]

/-- On a valid identity `ParseUint` returns its numeric value and no error. -/
theorem ParseUint_valid (s : String) (h : validIdentity s = true) :
    ParseUint s 10 64 = (decimalValue s, none) ∧ decimalValue s ≠ 0 := by
  simp only [validIdentity, Bool.and_eq_true, decide_eq_true_eq, bne_iff_ne, ne_eq] at h
  obtain ⟨⟨⟨hne, hall⟩, h1⟩, hM⟩ := h
  have hmax : decimalValue s ≤ maxUint64 := by
    rw [maxUint64]
    exact hM
  constructor
  · rw [ParseUint_eq_parseLoop s hne]
    exact (parseLoop_spec s.toList 0 (Nat.zero_le _)).1 ⟨hall, hmax⟩
  · omega

/-- On anything else `ParseUint` returns an error or the value zero. -/
theorem ParseUint_invalid (s : String) (h : validIdentity s = false) :
    (ParseUint s 10 64).2 ≠ none ∨ (ParseUint s 10 64).1 = 0 := by
  by_cases hne : s = ""
  · left
    simp [ParseUint, hne]
  · by_cases hd : s.toList.all isAsciiDigit = true ∧ decimalValue s ≤ maxUint64
    · right
      have hv : decimalValue s = 0 := by
        by_contra hv0
        have hM : decimalValue s ≤ 2 ^ 64 - 1 := hd.2
        have : validIdentity s = true := by
          simp only [validIdentity, Bool.and_eq_true, decide_eq_true_eq, bne_iff_ne, ne_eq]
          exact ⟨⟨⟨hne, hd.1⟩, by omega⟩, hM⟩
        rw [h] at this
        exact Bool.noConfusion this
      rw [ParseUint_eq_parseLoop s hne, (parseLoop_spec s.toList 0 (Nat.zero_le _)).1 hd]
      exact hv
    · left
      rw [ParseUint_eq_parseLoop s hne]
      exact (parseLoop_spec s.toList 0 (Nat.zero_le _)).2 hd

/-! ## Lemmas on the gate and the shaper -/

theorem authCheck_of_reject (j : JSONEndpoint) (r : Request) (s : Store)
    (h : (ParseUint (r.Header.Get "USER_ID") 10 64).2 ≠ none ∨
      (ParseUint (r.Header.Get "USER_ID") 10 64).1 = 0) :
    authCheck j r s = (unauthorized, s, []) := by
  unfold authCheck
  simp only [unauthorized]
  rw [if_pos h]

theorem authCheck_of_accept (j : JSONEndpoint) (r : Request) (s : Store) (n : Nat)
    (h : ParseUint (r.Header.Get "USER_ID") 10 64 = (n, none)) (hn : n ≠ 0) :
    authCheck j r s =
      ((j r (s.Set r userIDKey (GoValue.uint64 n))).1,
        (j r (s.Set r userIDKey (GoValue.uint64 n))).2,
        [Event.contextSet r.ptr userIDKey (GoValue.uint64 n), Event.invoke r.ptr]) := by
  unfold authCheck
  simp only [h]
  rw [if_neg (by simp [hn])]

theorem CanonicalMIMEHeaderKey_USER_ID : CanonicalMIMEHeaderKey "USER_ID" = "User_id" := by
  decide

theorem Get_requestWith (verb v : String) : (requestWith verb v).Header.Get "USER_ID" = v := by
  simp [requestWith, Header.Get, CanonicalMIMEHeaderKey_USER_ID, List.lookup]

theorem Header.Get_absent (h : Header) (key : String)
    (habs : h.lookup (CanonicalMIMEHeaderKey key) = none) : Header.Get h key = "" := by
  simp [Header.Get, habs]

theorem JSONMiddleware_of_reject (j : JSONEndpoint) (r : Request) (s : Store)
    (h : (ParseUint (r.Header.Get "USER_ID") 10 64).2 ≠ none ∨
      (ParseUint (r.Header.Get "USER_ID") 10 64).1 = 0) :
    JSONMiddleware j r s = (unauthorized, s, []) := by
  unfold JSONMiddleware
  rw [authCheck_of_reject j r s h]
  simp [unauthorized]

theorem JSONMiddleware_of_accept (j : JSONEndpoint) (r : Request) (s : Store) (n : Nat)
    (h : ParseUint (r.Header.Get "USER_ID") 10 64 = (n, none)) (hn : n ≠ 0) :
    JSONMiddleware j r s =
      match (j r (s.Set r userIDKey (GoValue.uint64 n))).1.err with
      | some e =>
        if (j r (s.Set r userIDKey (GoValue.uint64 n))).1.code ≠ StatusUnauthorized then
          (⟨StatusServiceUnavailable, none, some (GoError.json ServiceUnavailableErr)⟩,
            (j r (s.Set r userIDKey (GoValue.uint64 n))).2.LogError e "unexpected service error",
            [Event.contextSet r.ptr userIDKey (GoValue.uint64 n), Event.invoke r.ptr,
              Event.logError e])
        else ((j r (s.Set r userIDKey (GoValue.uint64 n))).1,
          (j r (s.Set r userIDKey (GoValue.uint64 n))).2,
          [Event.contextSet r.ptr userIDKey (GoValue.uint64 n), Event.invoke r.ptr])
      | none => ((j r (s.Set r userIDKey (GoValue.uint64 n))).1,
          (j r (s.Set r userIDKey (GoValue.uint64 n))).2,
          [Event.contextSet r.ptr userIDKey (GoValue.uint64 n), Event.invoke r.ptr]) := by
  unfold JSONMiddleware
  rw [authCheck_of_accept j r s n h hn]
  rfl

/-- Every request is either turned away by the gate or carries an identity. -/
theorem gate_cases (r : Request) :
    ((ParseUint (r.Header.Get "USER_ID") 10 64).2 ≠ none ∨
      (ParseUint (r.Header.Get "USER_ID") 10 64).1 = 0) ∨
    ∃ n, n ≠ 0 ∧ ParseUint (r.Header.Get "USER_ID") 10 64 = (n, none) := by
  rcases hp : ParseUint (r.Header.Get "USER_ID") 10 64 with ⟨n, e⟩
  cases e with
  | some e => exact Or.inl (Or.inl (by simp))
  | none =>
    by_cases hn : n = 0
    · exact Or.inl (Or.inr hn)
    · exact Or.inr ⟨n, hn, rfl⟩

/-! ## The identity gate -/

/-- C1: when the `USER_ID` header is absent, does not parse as a base-10
unsigned 64-bit integer, or parses to zero, `authCheck(j)(r)` returns exactly
`(401, nil, UnauthErr)` with the fixed message; the state is left as it was
(nothing is attached to the context) and no event is produced (`j` is not
invoked). The right-hand side mentions neither `j` nor any part of `r`. -/
theorem authCheck_unauthorized (j : JSONEndpoint) (r : Request) (s : Store)
    (h : r.Header.lookup (CanonicalMIMEHeaderKey "USER_ID") = none ∨
      (ParseUint (r.Header.Get "USER_ID") 10 64).2 ≠ none ∨
      (ParseUint (r.Header.Get "USER_ID") 10 64).1 = 0) :
    authCheck j r s = (⟨401, none, some (GoError.json UnauthErr)⟩, s, []) ∧
      (GoError.json UnauthErr).Error = "please include a valid USER_ID header in the request" := by
  refine ⟨?_, rfl⟩
  have h2 : (ParseUint (r.Header.Get "USER_ID") 10 64).2 ≠ none ∨
      (ParseUint (r.Header.Get "USER_ID") 10 64).1 = 0 := by
    rcases h with habs | herr | hzero
    · left
      rw [Header.Get_absent _ _ habs]
      simp [ParseUint]
    · exact Or.inl herr
    · exact Or.inr hzero
  exact authCheck_of_reject j r s h2

/-- C2: when the `USER_ID` header parses to `n` with `n ≠ 0`, `authCheck(j)(r)`
stores exactly `n` under `userIDKey` for this request, leaves every other
context entry and the log as they were, then invokes `j` once on that state
and returns what `j` returns; the events are the attachment followed by the
one invocation. -/
theorem authCheck_attaches_then_invokes (j : JSONEndpoint) (r : Request) (s : Store) (n : Nat)
    (h : ParseUint (r.Header.Get "USER_ID") 10 64 = (n, none)) (hn : n ≠ 0) :
    authCheck j r s =
        ((j r (s.Set r userIDKey (GoValue.uint64 n))).1,
          (j r (s.Set r userIDKey (GoValue.uint64 n))).2,
          [Event.contextSet r.ptr userIDKey (GoValue.uint64 n), Event.invoke r.ptr]) ∧
      (s.Set r userIDKey (GoValue.uint64 n)).data r.ptr userIDKey = some (GoValue.uint64 n) ∧
      (∀ p k, ¬ (p = r.ptr ∧ k = userIDKey) →
        (s.Set r userIDKey (GoValue.uint64 n)).data p k = s.data p k) ∧
      (s.Set r userIDKey (GoValue.uint64 n)).Log = s.Log := by
  refine ⟨authCheck_of_accept j r s n h hn, ?_, ?_, rfl⟩
  · simp [Store.Set]
  · intro p k hpk
    simp only [Store.Set]
    rw [if_neg hpk]

/-! ## The response shaper -/

/-- C3: with a valid non-zero identity `n`, when `j` returns `(code, res, e)`
with `e` non-nil and `code ≠ 401`, `JSONMiddleware(j)(r)` returns exactly
`(503, nil, ServiceUnavailableErr)` with the fixed message, whatever `code`,
`res` and `e` are, and appends one log entry carrying `e`. -/
theorem JSONMiddleware_unexpected_error (j : JSONEndpoint) (r : Request) (s s2 : Store)
    (n : Nat) (code : Int) (res : Option GoValue) (e : GoError)
    (h : ParseUint (r.Header.Get "USER_ID") 10 64 = (n, none)) (hn : n ≠ 0)
    (hj : j r (s.Set r userIDKey (GoValue.uint64 n)) = (⟨code, res, some e⟩, s2))
    (hcode : code ≠ 401) :
    JSONMiddleware j r s =
        (⟨503, none, some (GoError.json ServiceUnavailableErr)⟩,
          { s2 with Log := s2.Log ++ [⟨"error", "unexpected service error", [("error", e)]⟩] },
          [Event.contextSet r.ptr userIDKey (GoValue.uint64 n), Event.invoke r.ptr,
            Event.logError e]) ∧
      (GoError.json ServiceUnavailableErr).Error = "sorry, this service is currently unavailable" := by
  refine ⟨?_, rfl⟩
  rw [JSONMiddleware_of_accept j r s n h hn, hj]
  have hc : code ≠ StatusUnauthorized := hcode
  simp [hc, StatusServiceUnavailable, Store.LogError]

/-- C4: with a valid non-zero identity `n`, when `j` returns `(code, res, nil)`,
`JSONMiddleware(j)(r)` returns exactly `(code, res, nil)` for every `code`; the
state is the one `j` left and the events hold no log entry. -/
theorem JSONMiddleware_success_passthrough (j : JSONEndpoint) (r : Request) (s s2 : Store)
    (n : Nat) (code : Int) (res : Option GoValue)
    (h : ParseUint (r.Header.Get "USER_ID") 10 64 = (n, none)) (hn : n ≠ 0)
    (hj : j r (s.Set r userIDKey (GoValue.uint64 n)) = (⟨code, res, none⟩, s2)) :
    JSONMiddleware j r s =
      (⟨code, res, none⟩, s2,
        [Event.contextSet r.ptr userIDKey (GoValue.uint64 n), Event.invoke r.ptr]) := by
  rw [JSONMiddleware_of_accept j r s n h hn, hj]

/-- C5: when the gate rejects the request (header absent, unparseable or
zero), `JSONMiddleware(j)(r)` returns the gate's `(401, nil, UnauthErr)`
unchanged, not `503`; the state is left as it was (nothing is logged) and no
event is produced (`j` is not invoked). -/
theorem JSONMiddleware_unauthorized_passthrough (j : JSONEndpoint) (r : Request) (s : Store)
    (h : r.Header.lookup (CanonicalMIMEHeaderKey "USER_ID") = none ∨
      (ParseUint (r.Header.Get "USER_ID") 10 64).2 ≠ none ∨
      (ParseUint (r.Header.Get "USER_ID") 10 64).1 = 0) :
    JSONMiddleware j r s = (⟨401, none, some (GoError.json UnauthErr)⟩, s, []) ∧
      JSONMiddleware j r s = authCheck j r s ∧
      (GoError.json UnauthErr).Error = "please include a valid USER_ID header in the request" := by
  have h2 : (ParseUint (r.Header.Get "USER_ID") 10 64).2 ≠ none ∨
      (ParseUint (r.Header.Get "USER_ID") 10 64).1 = 0 := by
    rcases h with habs | herr | hzero
    · left
      rw [Header.Get_absent _ _ habs]
      simp [ParseUint]
    · exact Or.inl herr
    · exact Or.inr hzero
  refine ⟨JSONMiddleware_of_reject j r s h2, ?_, rfl⟩
  rw [JSONMiddleware_of_reject j r s h2, authCheck_of_reject j r s h2]

/-- The four shapes of a result of `JSONMiddleware(j)(r)`: no error; the fixed
`503`; the gate's `401`; or, with status `401`, the result of the endpoint. -/
theorem JSONMiddleware_result_cases (j : JSONEndpoint) (r : Request) (s : Store) :
    (JSONMiddleware j r s).1.err = none ∨
      (JSONMiddleware j r s).1 = ⟨503, none, some (GoError.json ServiceUnavailableErr)⟩ ∨
      (JSONMiddleware j r s).1 = ⟨401, none, some (GoError.json UnauthErr)⟩ ∨
      ((JSONMiddleware j r s).1.code = 401 ∧
        ∃ n, n ≠ 0 ∧ ParseUint (r.Header.Get "USER_ID") 10 64 = (n, none) ∧
          (JSONMiddleware j r s).1 = (j r (s.Set r userIDKey (GoValue.uint64 n))).1) := by
  rcases gate_cases r with hrej | ⟨n, hn, hp⟩
  · right; right; left
    rw [JSONMiddleware_of_reject j r s hrej]
    rfl
  · rw [JSONMiddleware_of_accept j r s n hp hn]
    rcases hj : j r (s.Set r userIDKey (GoValue.uint64 n)) with ⟨⟨code, res, err⟩, s2⟩
    cases err with
    | none => exact Or.inl rfl
    | some e =>
      by_cases hc : code = StatusUnauthorized
      · right; right; right
        simp only [hc, ne_eq, not_true_eq_false, if_false]
        exact ⟨rfl, n, hn, hp, by rw [hj, hc]⟩
      · right; left
        simp only [ne_eq, hc, not_false_eq_true, if_true]
        rfl

/-- C6, as the code has it: the error `JSONMiddleware(j)(r)` returns is nil,
`UnauthErr`, `ServiceUnavailableErr`, or, only together with status `401`, the
error that the endpoint itself returned with status `401` under an accepted
identity. -/
theorem JSONMiddleware_error_origin (j : JSONEndpoint) (r : Request) (s : Store) :
    (JSONMiddleware j r s).1.err = none ∨
      (JSONMiddleware j r s).1.err = some (GoError.json UnauthErr) ∨
      (JSONMiddleware j r s).1.err = some (GoError.json ServiceUnavailableErr) ∨
      ((JSONMiddleware j r s).1.code = 401 ∧
        ∃ n, n ≠ 0 ∧ ParseUint (r.Header.Get "USER_ID") 10 64 = (n, none) ∧
          (j r (s.Set r userIDKey (GoValue.uint64 n))).1.code = 401 ∧
          (JSONMiddleware j r s).1.err = (j r (s.Set r userIDKey (GoValue.uint64 n))).1.err) := by
  rcases JSONMiddleware_result_cases j r s with h0 | h503 | h401 | ⟨hc, n, hn, hp, hout⟩
  · exact Or.inl h0
  · right; right; left
    rw [h503]
  · right; left
    rw [h401]
  · right; right; right
    refine ⟨hc, n, hn, hp, ?_, ?_⟩
    · rw [← hout]
      exact hc
    · rw [← hout]

/-- C6 fails as stated: an endpoint that returns its own error with status
`401` has that error, text included, returned by `JSONMiddleware`. -/
theorem JSONMiddleware_passes_endpoint_error_with_401 :
    (JSONMiddleware forbiddingEndpoint (requestWith "GET" "42") emptyStore).1.err
        = some (GoError.foreign "user 42 has no row in table saved_items") ∧
      ¬ ((JSONMiddleware forbiddingEndpoint (requestWith "GET" "42") emptyStore).1.err = none ∨
        (JSONMiddleware forbiddingEndpoint (requestWith "GET" "42") emptyStore).1.err
          = some (GoError.json UnauthErr) ∨
        (JSONMiddleware forbiddingEndpoint (requestWith "GET" "42") emptyStore).1.err
          = some (GoError.json ServiceUnavailableErr)) := by
  have hp : ParseUint ((requestWith "GET" "42").Header.Get "USER_ID") 10 64 = (42, none) := by
    decide
  rw [JSONMiddleware_of_accept _ _ _ 42 hp (by decide)]
  simp [forbiddingEndpoint, StatusUnauthorized]

/-- C7: when `JSONMiddleware(j)(r)` returns a non-nil error, the status is
`401` or `503`, and if it is `503` the payload is nil and the error is
`ServiceUnavailableErr`. -/
theorem JSONMiddleware_error_status (j : JSONEndpoint) (r : Request) (s : Store)
    (h : (JSONMiddleware j r s).1.err ≠ none) :
    ((JSONMiddleware j r s).1.code = 401 ∨ (JSONMiddleware j r s).1.code = 503) ∧
      ((JSONMiddleware j r s).1.code = 503 →
        (JSONMiddleware j r s).1.res = none ∧
        (JSONMiddleware j r s).1.err = some (GoError.json ServiceUnavailableErr)) := by
  rcases JSONMiddleware_result_cases j r s with h0 | h503 | h401 | ⟨hc, _⟩
  · exact absurd h0 h
  · rw [h503]
    exact ⟨Or.inr rfl, fun _ => ⟨rfl, rfl⟩⟩
  · rw [h401]
    exact ⟨Or.inl rfl, fun h5 => absurd h5 (by decide)⟩
  · rw [hc]
    exact ⟨Or.inl rfl, fun h5 => absurd h5 (by decide)⟩

/-! ## The compression hook -/

/-- The handler that serves the request at position `k` (from zero) of a
sequence sent to `Middleware(h)` is `h` wrapped `k + 1` times. -/
theorem serveAll_Middleware (h : Handler) (rs : List Request) :
    (Middleware h).serveAll rs = (List.range rs.length).map (fun k => gzipTimes (k + 1) h) := by
  induction rs generalizing h with
  | nil => rfl
  | cons r rs ih =>
    have hstep : (Middleware h).serveAll (r :: rs)
        = Handler.GzipHandler h :: (Middleware (Handler.GzipHandler h)).serveAll rs := rfl
    have hshift : ∀ k, gzipTimes (k + 1) (Handler.GzipHandler h) = gzipTimes (k + 1 + 1) h := by
      intro k
      induction k with
      | zero => rfl
      | succ k ihk =>
        show Handler.GzipHandler (gzipTimes (k + 1) (Handler.GzipHandler h)) = _
        rw [ihk]
        rfl
    rw [hstep, ih, List.length_cons, List.range_succ_eq_map, List.map_cons, List.map_map]
    congr 1
    apply List.map_congr_left
    intro k _
    exact hshift k

/-- C8, on the code: of two requests sent to the handler `Middleware(h)`
returns, the first is served by `h` wrapped once and the second by `h`
wrapped twice, a handler other than `h` wrapped once. -/
theorem Middleware_second_request_wrapped_twice :
    (Middleware (Handler.given 0)).serveAll [requestWith "GET" "42", requestWith "GET" "42"]
        = [Handler.GzipHandler (Handler.given 0),
            Handler.GzipHandler (Handler.GzipHandler (Handler.given 0))] ∧
      Handler.GzipHandler (Handler.GzipHandler (Handler.given 0))
        ≠ Handler.GzipHandler (Handler.given 0) ∧
      ((Middleware (Handler.given 0)).ServeHTTP (requestWith "GET" "42")).1
        ≠ Middleware (Handler.given 0) := by
  refine ⟨rfl, by decide, by decide⟩

/-! ## The route table -/

/-- C9: `Prefix()` is `"/svc/saved-items"`; the map of `JSONEndpoints()` has the
one route `"/user"`, whose method map has the keys `GET`, `PUT` and `DELETE`
and no other, bound to the service's `Get`, `Put` and `Delete`. -/
theorem JSONEndpoints_exact (s : SavedItemsService) :
    s.Prefix = "/svc/saved-items" ∧
      s.JSONEndpoints.map Prod.fst = ["/user"] ∧
      (s.JSONEndpoints.lookup "/user").map (fun ms => ms.map Prod.fst)
        = some ["GET", "PUT", "DELETE"] ∧
      ∀ route method : String, s.endpointAt route method =
        if route = "/user" then
          if method = "GET" then some s.Get
          else if method = "PUT" then some s.Put
          else if method = "DELETE" then some s.Delete
          else none
        else none := by
  refine ⟨rfl, rfl, rfl, ?_⟩
  intro route method
  unfold SavedItemsService.endpointAt SavedItemsService.JSONEndpoints
  by_cases hr : route = "/user"
  · subst hr
    simp only [List.lookup, beq_self_eq_true, if_true]
    by_cases hg : method = "GET"
    · subst hg
      simp [List.lookup]
    · by_cases hp : method = "PUT"
      · subst hp
        simp [List.lookup]
      · by_cases hd : method = "DELETE"
        · subst hd
          simp [List.lookup]
        · have h1 : (method == "GET") = false := by simpa using hg
          have h2 : (method == "PUT") = false := by simpa using hp
          have h3 : (method == "DELETE") = false := by simpa using hd
          simp [List.lookup, h1, h2, h3, hg, hp, hd]
  · have h1 : (route == "/user") = false := by simpa using hr
    simp [List.lookup, h1, hr]

/-! ## Which header values pass the gate -/

/-- C10: the gate accepts exactly the header values that are non-empty strings
of ASCII decimal digits with a value `v`, `1 ≤ v ≤ 2 ^ 64 - 1`, and then
attaches `v`; every other value gets the `401` rejection. So `"007"` attaches
`7`, while `"+42"`, `"-1"`, `" 42"`, `"4_2"`, `"0x2A"`, `"0"`, `"000"` and
`"18446744073709551616"` are rejected. -/
theorem authCheck_accepts_iff_validIdentity (j : JSONEndpoint) (r : Request) (s : Store) :
    (authCheck j r s =
        if validIdentity (r.Header.Get "USER_ID") = true then
          ((j r (s.Set r userIDKey (GoValue.uint64 (decimalValue (r.Header.Get "USER_ID"))))).1,
            (j r (s.Set r userIDKey (GoValue.uint64 (decimalValue (r.Header.Get "USER_ID"))))).2,
            [Event.contextSet r.ptr userIDKey
                (GoValue.uint64 (decimalValue (r.Header.Get "USER_ID"))),
              Event.invoke r.ptr])
        else (⟨401, none, some (GoError.json UnauthErr)⟩, s, [])) ∧
      authCheck j (requestWith r.Method "007") s =
        ((j (requestWith r.Method "007")
            (s.Set (requestWith r.Method "007") userIDKey (GoValue.uint64 7))).1,
          (j (requestWith r.Method "007")
            (s.Set (requestWith r.Method "007") userIDKey (GoValue.uint64 7))).2,
          [Event.contextSet 1 userIDKey (GoValue.uint64 7), Event.invoke 1]) ∧
      (∀ v ∈ ["+42", "-1", " 42", "4_2", "0x2A", "0", "000", "18446744073709551616"],
        authCheck j (requestWith r.Method v) s
          = (⟨401, none, some (GoError.json UnauthErr)⟩, s, [])) := by
  refine ⟨?_, ?_, ?_⟩
  · cases hv : validIdentity (r.Header.Get "USER_ID") with
    | true =>
      obtain ⟨hp, hn⟩ := ParseUint_valid _ hv
      rw [authCheck_of_accept j r s _ hp hn]
      simp
    | false =>
      rw [authCheck_of_reject j r s (ParseUint_invalid _ hv)]
      simp [unauthorized, StatusUnauthorized]
  · have hp : ParseUint ((requestWith r.Method "007").Header.Get "USER_ID") 10 64 = (7, none) := by
      rw [Get_requestWith]
      decide
    exact authCheck_of_accept j _ s 7 hp (by decide)
  · intro v hv
    have hrej : (ParseUint ((requestWith r.Method v).Header.Get "USER_ID") 10 64).2 ≠ none ∨
        (ParseUint ((requestWith r.Method v).Header.Get "USER_ID") 10 64).1 = 0 := by
      simp only [List.mem_cons, List.mem_singleton, List.not_mem_nil, or_false] at hv
      rw [Get_requestWith]
      rcases hv with h | h | h | h | h | h | h | h <;> subst h <;> decide
    exact authCheck_of_reject j _ s hrej

/-! ## The theorems at concrete requests -/

/-- C1 at a `GET` without the header, on an endpoint that would answer `200`. -/
theorem authCheck_unauthorized_witness :
    ((requestWithout "GET").Header.lookup (CanonicalMIMEHeaderKey "USER_ID") = none ∨
      (ParseUint ((requestWithout "GET").Header.Get "USER_ID") 10 64).2 ≠ none ∨
      (ParseUint ((requestWithout "GET").Header.Get "USER_ID") 10 64).1 = 0) ∧
    (authCheck echoEndpoint (requestWithout "GET") emptyStore
        = (⟨401, none, some (GoError.json UnauthErr)⟩, emptyStore, []) ∧
      (GoError.json UnauthErr).Error = "please include a valid USER_ID header in the request") :=
  ⟨by decide, authCheck_unauthorized echoEndpoint (requestWithout "GET") emptyStore (by decide)⟩

/-- C2 at a `GET` with `USER_ID: 42`. -/
theorem authCheck_attaches_then_invokes_witness :
    (ParseUint ((requestWith "GET" "42").Header.Get "USER_ID") 10 64 = (42, none) ∧ 42 ≠ 0) ∧
    (authCheck echoEndpoint (requestWith "GET" "42") emptyStore).1
      = ⟨200, some (GoValue.uint64 42), none⟩ ∧
    (authCheck echoEndpoint (requestWith "GET" "42") emptyStore).2.2
      = [Event.contextSet 1 userIDKey (GoValue.uint64 42), Event.invoke 1] :=
  ⟨⟨by decide, by decide⟩,
    by rw [(authCheck_attaches_then_invokes echoEndpoint (requestWith "GET" "42") emptyStore 42
      (by decide) (by decide)).1]; decide,
    by rw [(authCheck_attaches_then_invokes echoEndpoint (requestWith "GET" "42") emptyStore 42
      (by decide) (by decide)).1]; rfl⟩

/-- C3 at a `DELETE` with `USER_ID: 7` whose repository call fails. -/
theorem JSONMiddleware_unexpected_error_witness :
    (ParseUint ((requestWith "DELETE" "7").Header.Get "USER_ID") 10 64 = (7, none) ∧ 7 ≠ 0 ∧
      failingEndpoint (requestWith "DELETE" "7")
          (emptyStore.Set (requestWith "DELETE" "7") userIDKey (GoValue.uint64 7))
        = (⟨500, some (GoValue.string "half a page"),
            some (GoError.foreign "dial tcp 10.0.0.5:3306: connection refused")⟩,
          emptyStore.Set (requestWith "DELETE" "7") userIDKey (GoValue.uint64 7)) ∧
      (500 : Int) ≠ 401) ∧
    (JSONMiddleware failingEndpoint (requestWith "DELETE" "7") emptyStore).1
      = ⟨503, none, some (GoError.json ServiceUnavailableErr)⟩ :=
  ⟨⟨by decide, by decide, rfl, by decide⟩,
    by rw [(JSONMiddleware_unexpected_error failingEndpoint (requestWith "DELETE" "7") emptyStore
      (emptyStore.Set (requestWith "DELETE" "7") userIDKey (GoValue.uint64 7)) 7 500
      (some (GoValue.string "half a page"))
      (GoError.foreign "dial tcp 10.0.0.5:3306: connection refused")
      (by decide) (by decide) rfl (by decide)).1]⟩

/-- C4 at a `GET` with `USER_ID: 42` answered `200`. -/
theorem JSONMiddleware_success_passthrough_witness :
    (ParseUint ((requestWith "GET" "42").Header.Get "USER_ID") 10 64 = (42, none) ∧ 42 ≠ 0 ∧
      echoEndpoint (requestWith "GET" "42")
          (emptyStore.Set (requestWith "GET" "42") userIDKey (GoValue.uint64 42))
        = (⟨200, some (GoValue.uint64 42), none⟩,
          emptyStore.Set (requestWith "GET" "42") userIDKey (GoValue.uint64 42))) ∧
    JSONMiddleware echoEndpoint (requestWith "GET" "42") emptyStore
      = (⟨200, some (GoValue.uint64 42), none⟩,
        emptyStore.Set (requestWith "GET" "42") userIDKey (GoValue.uint64 42),
        [Event.contextSet 1 userIDKey (GoValue.uint64 42), Event.invoke 1]) :=
  ⟨⟨by decide, by decide, rfl⟩,
    JSONMiddleware_success_passthrough echoEndpoint (requestWith "GET" "42") emptyStore
      (emptyStore.Set (requestWith "GET" "42") userIDKey (GoValue.uint64 42)) 42 200
      (some (GoValue.uint64 42)) (by decide) (by decide) rfl⟩

/-- C5 at a `PUT` with `USER_ID: 0`. -/
theorem JSONMiddleware_unauthorized_passthrough_witness :
    ((requestWith "PUT" "0").Header.lookup (CanonicalMIMEHeaderKey "USER_ID") = none ∨
      (ParseUint ((requestWith "PUT" "0").Header.Get "USER_ID") 10 64).2 ≠ none ∨
      (ParseUint ((requestWith "PUT" "0").Header.Get "USER_ID") 10 64).1 = 0) ∧
    (JSONMiddleware failingEndpoint (requestWith "PUT" "0") emptyStore
        = (⟨401, none, some (GoError.json UnauthErr)⟩, emptyStore, []) ∧
      JSONMiddleware failingEndpoint (requestWith "PUT" "0") emptyStore
        = authCheck failingEndpoint (requestWith "PUT" "0") emptyStore ∧
      (GoError.json UnauthErr).Error = "please include a valid USER_ID header in the request") :=
  ⟨by decide,
    JSONMiddleware_unauthorized_passthrough failingEndpoint (requestWith "PUT" "0") emptyStore
      (by decide)⟩

/-- C7 at a `DELETE` with `USER_ID: 7` whose repository call fails. -/
theorem JSONMiddleware_error_status_witness :
    (JSONMiddleware failingEndpoint (requestWith "DELETE" "7") emptyStore).1.err ≠ none ∧
    (((JSONMiddleware failingEndpoint (requestWith "DELETE" "7") emptyStore).1.code = 401 ∨
        (JSONMiddleware failingEndpoint (requestWith "DELETE" "7") emptyStore).1.code = 503) ∧
      ((JSONMiddleware failingEndpoint (requestWith "DELETE" "7") emptyStore).1.code = 503 →
        (JSONMiddleware failingEndpoint (requestWith "DELETE" "7") emptyStore).1.res = none ∧
        (JSONMiddleware failingEndpoint (requestWith "DELETE" "7") emptyStore).1.err
          = some (GoError.json ServiceUnavailableErr))) :=
  ⟨by decide,
    JSONMiddleware_error_status failingEndpoint (requestWith "DELETE" "7") emptyStore
      (by decide)⟩

end Gizmo
